import Mathlib

/-!
Shallow embedding of the real-time video capture and relay subsystem of the
pool-telemetry backend (`backend/app/api/websockets/video.py` and
`backend/app/api/websockets/events.py`), together with theorems settling the
specification claims about it.

Connections (websocket objects) are modelled by natural-number identifiers.
The liveness of a connection (whether a `send` on it succeeds or raises) is a
parameter `live : Nat → Bool`.  Python dicts are modelled as association
lists with first-key-wins lookup; Python lists as Lean lists; Python sets as
duplicate-free lists.
-/

namespace PoolTelemetry

/-! ### Association-list model of Python dicts -/

def lookupA {α : Type} : List (String × α) → String → Option α
  | [], _ => none
  | (k, v) :: t, key => if k = key then some v else lookupA t key

def setA {α : Type} : List (String × α) → String → α → List (String × α)
  | [], key, v => [(key, v)]
  | (k, w) :: t, key, v => if k = key then (key, v) :: t else (k, w) :: setA t key v

def eraseA {α : Type} : List (String × α) → String → List (String × α)
  | [], _ => []
  | (k, w) :: t, key => if k = key then eraseA t key else (k, w) :: eraseA t key

def countKey {α : Type} (m : List (String × α)) (key : String) : Nat :=
  (m.filter (fun p => p.1 = key)).length

theorem lookupA_setA_self {α : Type} (m : List (String × α)) (key : String) (v : α) :
    lookupA (setA m key v) key = some v := by
  induction m with
  | nil => simp [setA, lookupA]
  | cons p t ih =>
    by_cases h : p.1 = key
    · simp [setA, lookupA, h]
    · simp [setA, lookupA, h, ih]

theorem setA_eq_self_of_lookupA {α : Type} (m : List (String × α)) (key : String) (v : α)
    (h : lookupA m key = some v) : setA m key v = m := by
  induction m with
  | nil => simp [lookupA] at h
  | cons p t ih =>
    by_cases hk : p.1 = key
    · simp [lookupA, hk] at h
      subst hk
      simp [setA, ← h]
    · simp [lookupA, hk] at h
      simp [setA, hk, ih h]

theorem lookupA_eraseA_of_lookupA_none {α : Type} (m : List (String × α)) (key : String)
    (h : lookupA m key = none) : eraseA m key = m := by
  induction m with
  | nil => simp [eraseA]
  | cons p t ih =>
    by_cases hk : p.1 = key
    · simp [lookupA, hk] at h
    · simp [lookupA, hk] at h
      simp [eraseA, hk, ih h]

theorem lookupA_eraseA_self {α : Type} (m : List (String × α)) (key : String) :
    lookupA (eraseA m key) key = none := by
  induction m with
  | nil => simp [eraseA, lookupA]
  | cons p t ih =>
    by_cases hk : p.1 = key
    · simp [eraseA, hk, ih]
    · simp [eraseA, lookupA, hk, ih]

theorem countKey_eq_zero_of_lookupA_none {α : Type} (m : List (String × α)) (key : String)
    (h : lookupA m key = none) : countKey m key = 0 := by
  induction m with
  | nil => simp [countKey]
  | cons p t ih =>
    by_cases hk : p.1 = key
    · simp [lookupA, hk] at h
    · simp [lookupA, hk] at h
      simpa [countKey, List.filter, hk] using ih h

theorem countKey_pos_of_lookupA_some {α : Type} (m : List (String × α)) (key : String) (v : α)
    (h : lookupA m key = some v) : 1 ≤ countKey m key := by
  induction m with
  | nil => simp [lookupA] at h
  | cons p t ih =>
    by_cases hk : p.1 = key
    · simp [countKey, List.filter, hk]
    · simp [lookupA, hk] at h
      simpa [countKey, List.filter, hk] using ih h

theorem countKey_setA_of_lookupA_none {α : Type} (m : List (String × α)) (key : String) (v : α)
    (h : lookupA m key = none) : countKey (setA m key v) key = 1 := by
  induction m with
  | nil => simp [setA, countKey, List.filter]
  | cons p t ih =>
    by_cases hk : p.1 = key
    · simp [lookupA, hk] at h
    · simp [lookupA, hk] at h
      simpa [setA, countKey, List.filter, hk] using ih h

/-! ### Event broadcast hub (`events.py`, `ConnectionManager`)

`active_connections` maps a session id to the set of subscribed websockets
(a Python `set`, modelled as a duplicate-free list). -/

structure ConnectionManager where
  active_connections : List (String × List Nat)
  deriving Repr, DecidableEq

def ConnectionManager.connect (m : ConnectionManager) (session_id : String) (ws : Nat) :
    ConnectionManager :=
  match lookupA m.active_connections session_id with
  | none => ⟨setA m.active_connections session_id [ws]⟩
  | some conns =>
      ⟨setA m.active_connections session_id (if ws ∈ conns then conns else conns ++ [ws])⟩

def ConnectionManager.disconnect (m : ConnectionManager) (session_id : String) (ws : Nat) :
    ConnectionManager :=
  match lookupA m.active_connections session_id with
  | none => m
  | some conns =>
      let conns' := conns.filter (fun c => c ≠ ws)
      if conns' = [] then ⟨eraseA m.active_connections session_id⟩
      else ⟨setA m.active_connections session_id conns'⟩

/-- `broadcast(session_id, message)`: the message is serialized once (`data`);
it is sent to every current subscriber; a websocket whose send raises is
collected in `dead_connections` and disconnected only after the send pass.
Returns the updated manager and the list of (recipient, payload) deliveries. -/
def ConnectionManager.broadcast (m : ConnectionManager) (live : Nat → Bool)
    (session_id : String) (data : String) : ConnectionManager × List (Nat × String) :=
  match lookupA m.active_connections session_id with
  | none => (m, [])
  | some conns =>
      let delivered := (conns.filter live).map (fun c => (c, data))
      let dead_connections := conns.filter (fun c => !live c)
      (dead_connections.foldl (fun acc ws => acc.disconnect session_id ws) m, delivered)

/-! ### Source-locator parsing (`video.py`, `CameraManager.start_capture`)

`int(source.split(":")[1])` with `(IndexError, ValueError)` falling back to
device index 0.  The string primitives (`str.startswith`, `str.split(":")`
and the whitespace strip of `int`) are spelled out as structural recursions
over the character list so that they evaluate. -/

def strStartsWith (s p : String) : Bool :=
  p.toList.isPrefixOf s.toList

def pySplitColonGo : List Char → List Char → List (List Char)
  | [], acc => [acc.reverse]
  | c :: t, acc =>
      if c = ':' then acc.reverse :: pySplitColonGo t []
      else pySplitColonGo t (c :: acc)

/-- Python `source.split(":")`. -/
def pySplitColon (s : String) : List String :=
  (pySplitColonGo s.toList []).map String.mk

def pyTrim (cs : List Char) : List Char :=
  ((cs.dropWhile Char.isWhitespace).reverse.dropWhile Char.isWhitespace).reverse

def pyDigitsGo : List Char → Nat → Option Nat
  | [], acc => some acc
  | '_' :: c :: t, acc =>
      if c.isDigit then pyDigitsGo t (acc * 10 + (c.toNat - 48)) else none
  | c :: t, acc =>
      if c.isDigit then pyDigitsGo t (acc * 10 + (c.toNat - 48)) else none

def pyDigits : List Char → Option Nat
  | [] => none
  | c :: t => if c.isDigit then pyDigitsGo t (c.toNat - 48) else none

/-- Python `int(str)`: surrounding whitespace stripped, optional sign, decimal
digits with single underscores allowed between digit groups; `none` models
`ValueError`. -/
def pythonInt (s : String) : Option Int :=
  match pyTrim s.toList with
  | '+' :: rest => (pyDigits rest).map Int.ofNat
  | '-' :: rest => (pyDigits rest).map (fun n => -(Int.ofNat n : Int))
  | rest => (pyDigits rest).map Int.ofNat

def parse_device_index (source : String) : Int :=
  match (pySplitColon source)[1]? with
  | none => 0
  | some t =>
      match pythonInt t with
      | none => 0
      | some i => i

inductive SourceKind : Type
  | device (idx : Int)
  | network (url : String)
  | unrecognized
  deriving Repr, DecidableEq

def networkSchemes : List String := ["udp://", "rtsp://", "http://", "https://"]

def classify_source (source : String) : SourceKind :=
  if strStartsWith source "device:" then .device (parse_device_index source)
  else if networkSchemes.any (fun p => strStartsWith source p) then .network source
  else .unrecognized

/-! ### Capture registry (`video.py`, `CameraManager`)

`active_cameras` maps a session id to an opened capture handle (an opaque
`Nat`).  The hardware is a parameter: `openUSBFn idx` / `openStreamFn url`
return `some handle` when a backend manages to open the source and `none`
otherwise.  Each operation also returns the trace of lock and blocking-I/O
events it performs, in program order, so that the claim about the mutex not
being held across blocking I/O can be stated. -/

inductive CapEvent : Type
  | acquire
  | release
  | openUSB (idx : Int)
  | openStream (url : String)
  | closeCap
  deriving Repr, DecidableEq

structure CameraManager where
  active_cameras : List (String × Nat)
  deriving Repr, DecidableEq

/-- `CameraManager.start_capture`: under the registry lock, return `True` if an
adapter already exists; otherwise classify the source, open it (a blocking
call dispatched to the worker pool but awaited inside the critical section),
and on success store the handle in the map. -/
def start_capture (openUSBFn : Int → Option Nat) (openStreamFn : String → Option Nat)
    (mgr : CameraManager) (session_id source : String) :
    CameraManager × Bool × List CapEvent :=
  if (lookupA mgr.active_cameras session_id).isSome then
    (mgr, true, [.acquire, .release])
  else
    match classify_source source with
    | .device idx =>
        match openUSBFn idx with
        | none => (mgr, false, [.acquire, .openUSB idx, .release])
        | some cap =>
            (⟨setA mgr.active_cameras session_id cap⟩, true,
              [.acquire, .openUSB idx, .release])
    | .network url =>
        match openStreamFn url with
        | none => (mgr, false, [.acquire, .openStream url, .release])
        | some cap =>
            (⟨setA mgr.active_cameras session_id cap⟩, true,
              [.acquire, .openStream url, .release])
    | .unrecognized => (mgr, false, [.acquire, .release])

/-- `CameraManager.stop_capture`: under the registry lock, pop the adapter for
the session if present and release it (`cap.release()` runs inside the
critical section). -/
def stop_capture (mgr : CameraManager) (session_id : String) :
    CameraManager × List CapEvent :=
  match lookupA mgr.active_cameras session_id with
  | none => (mgr, [.acquire, .release])
  | some _ => (⟨eraseA mgr.active_cameras session_id⟩, [.acquire, .closeCap, .release])

def isBlockingCall : CapEvent → Bool
  | .openUSB _ => true
  | .openStream _ => true
  | .closeCap => true
  | _ => false

def lockHeldAcrossBlockingGo : List CapEvent → Bool → Bool
  | [], _ => false
  | .acquire :: t, _ => lockHeldAcrossBlockingGo t true
  | .release :: t, _ => lockHeldAcrossBlockingGo t false
  | e :: t, held => (held && isBlockingCall e) || lockHeldAcrossBlockingGo t held

/-- Whether the trace performs a blocking I/O event while the registry mutex
is held. -/
def lockHeldAcrossBlocking (tr : List CapEvent) : Bool :=
  lockHeldAcrossBlockingGo tr false

/-! ### Single-viewer path of `video_websocket` (`video.py`)

Only the effects relevant to the claims are tracked: the typed messages sent
to the viewer and the ordered list of session-status writes performed through
`update_session_status`.  The streaming loop itself is abstracted by how it
ends (`stop` message, transport disconnect, or an exception): all three paths
reach the same `finally` block. -/

inductive LoopEnd : Type
  | stopMsg
  | disconnect
  | exceptionRaised
  deriving Repr, DecidableEq

inductive VOut : Type
  | errorMsg (text : String)
  | connected (session_id source : String)
  deriving Repr, DecidableEq

structure VWResult where
  cams : CameraManager
  sent : List VOut
  statusWrites : List (String × String)
  deriving Repr, DecidableEq

/-- The capture branch of `video_websocket` (reached when the session's source
type is not `mobile_camera`): start capture; on failure send one `error`
message and close without touching the session status; on success write
`recording`, send `connected`, run the paced loop, and in `finally` stop the
capture and write `completed`. -/
def video_websocket_single (openUSBFn : Int → Option Nat)
    (openStreamFn : String → Option Nat) (mgr : CameraManager)
    (session_id source : String) (ends : LoopEnd) : VWResult :=
  let r := start_capture openUSBFn openStreamFn mgr session_id source
  if r.2.1 = false then
    { cams := r.1
      sent := [.errorMsg ("Failed to open video source: " ++ source)]
      statusWrites := [] }
  else
    match ends with
    | _ =>
        let s := stop_capture r.1 session_id
        { cams := s.1
          sent := [.connected session_id source]
          statusWrites := [(session_id, "recording"), (session_id, "completed")] }

/-! ### Relay sessions (`video.py`, `MobileVideoSession` and
`handle_mobile_camera_session`)

`RelayState` couples the global `mobile_video_sessions` registry with the
external metadata store's per-session status (written through
`update_session_status`).  Outbound messages are returned as
(connection, message) pairs. -/

structure MobileVideoSession where
  session_id : String
  producer : Option Nat
  consumers : List Nat
  frame_count : Nat
  deriving Repr, DecidableEq

inductive RMsg : Type
  | errorText (text : String)
  | registeredProducer (session_id : String)
  | registeredConsumer (session_id : String) (producer_connected : Bool) (frame_count : Nat)
  | producerConnected
  | producerDisconnected
  | frame (payload : Nat)
  deriving Repr, DecidableEq

/-- `MobileVideoSession.broadcast_to_consumers`: send to every consumer in
list order, collecting the ones whose send raises; afterwards remove each
collected consumer from the list (`list.remove`, i.e. first occurrence,
guarded by a membership test). -/
def MobileVideoSession.broadcast_to_consumers (vs : MobileVideoSession)
    (live : Nat → Bool) (msg : RMsg) : MobileVideoSession × List (Nat × RMsg) :=
  let delivered := (vs.consumers.filter live).map (fun c => (c, msg))
  let disconnected := vs.consumers.filter (fun c => !live c)
  let remaining := disconnected.foldl
    (fun cs ws => if ws ∈ cs then cs.erase ws else cs) vs.consumers
  ({ vs with consumers := remaining }, delivered)

structure RelayState where
  sessions : List (String × MobileVideoSession)
  statusStore : List (String × String)
  deriving Repr, DecidableEq

def relayLookup (st : RelayState) (session_id : String) : Option MobileVideoSession :=
  lookupA st.sessions session_id

/-- Entry to `handle_mobile_camera_session`: create the session entry if it
does not exist yet (`producer = None`, no consumers, `frame_count = 0`). -/
def getOrCreateSession (st : RelayState) (session_id : String) : RelayState :=
  match lookupA st.sessions session_id with
  | some _ => st
  | none =>
      { st with sessions := setA st.sessions session_id ⟨session_id, none, [], 0⟩ }

/-- The `finally` block of `handle_mobile_camera_session`.  For the producer:
clear the producer slot, broadcast `producer_disconnected`, set the session
status to `completed`.  For a non-producer: remove the websocket from the
consumer list if present.  In both cases, delete the registry entry if the
producer slot is empty and no consumers remain. -/
def relayTeardown (st : RelayState) (session_id : String) (conn : Nat)
    (is_producer : Bool) (live : Nat → Bool) : RelayState × List (Nat × RMsg) :=
  match lookupA st.sessions session_id with
  | none => (st, [])
  | some vs =>
      let step :=
        if is_producer then
          let vs1 := { vs with producer := none }
          let b := vs1.broadcast_to_consumers live .producerDisconnected
          ({ st with
              sessions := setA st.sessions session_id b.1
              statusStore := setA st.statusStore session_id "completed" }, b.2, b.1)
        else
          let vs1 :=
            { vs with consumers :=
                if conn ∈ vs.consumers then vs.consumers.erase conn else vs.consumers }
          ({ st with sessions := setA st.sessions session_id vs1 }, [], vs1)
      let st1 := step.1
      let vs2 := step.2.2
      if vs2.producer = none ∧ vs2.consumers = [] then
        ({ st1 with sessions := eraseA st1.sessions session_id }, step.2.1)
      else
        (st1, step.2.1)

/-- The `register_producer` branch.  If a producer is already attached, send
one `error` message and return (the subsequent `finally` block then runs with
`is_producer = False`).  Otherwise take the producer slot, acknowledge with
`registered`, broadcast `producer_connected` to current consumers, and set the
session status to `recording`.  The returned `Bool` tells whether the
registration was accepted. -/
def register_producer (st : RelayState) (session_id : String) (conn : Nat)
    (live : Nat → Bool) : RelayState × List (Nat × RMsg) × Bool :=
  match lookupA st.sessions session_id with
  | none => (st, [], false)
  | some vs =>
      match vs.producer with
      | some _ =>
          let rejectMsg : List (Nat × RMsg) :=
            [(conn, .errorText "Producer already connected. Only one mobile device allowed.")]
          let td := relayTeardown st session_id conn false live
          (td.1, rejectMsg ++ td.2, false)
      | none =>
          let vs1 := { vs with producer := some conn }
          let b := vs1.broadcast_to_consumers live .producerConnected
          ({ sessions := setA st.sessions session_id b.1
             statusStore := setA st.statusStore session_id "recording" },
            (conn, .registeredProducer session_id) :: b.2, true)

/-- The `register_consumer` branch: append the websocket to the consumer list,
then acknowledge with `registered`, carrying the current producer presence and
frame counter. -/
def register_consumer (st : RelayState) (session_id : String) (conn : Nat) :
    RelayState × List (Nat × RMsg) :=
  match lookupA st.sessions session_id with
  | none => (st, [])
  | some vs =>
      let vs1 := { vs with consumers := vs.consumers ++ [conn] }
      ({ st with sessions := setA st.sessions session_id vs1 },
        [(conn, .registeredConsumer session_id vs1.producer.isSome vs1.frame_count)])

/-- One `frame` message received in the producer relay loop: increment the
session frame counter, then relay the frame to every current consumer. -/
def producer_frame (st : RelayState) (session_id : String) (live : Nat → Bool)
    (payload : Nat) : RelayState × List (Nat × RMsg) :=
  match lookupA st.sessions session_id with
  | none => (st, [])
  | some vs =>
      let vs1 := { vs with frame_count := vs.frame_count + 1 }
      let b := vs1.broadcast_to_consumers live (.frame payload)
      ({ st with sessions := setA st.sessions session_id b.1 }, b.2)

/-! ### Receive-loop reactions to one inbound message

An inbound websocket message is either a JSON object (with a `type` field,
possibly absent — `dict.get` then yields `None`, handled like any
unrecognized type), some other JSON value (on which `.get` raises
`AttributeError`), or unparseable text (`json.loads` /
`websocket.receive_json` raises).  Each step function records how the
corresponding loop in `video.py` reacts. -/

inductive Inbound : Type
  | obj (type_field : String)
  | nonObject
  | unparseable
  deriving Repr, DecidableEq

inductive LoopOutcome : Type
  | keepOpen
  | breakLoop
  | exitError
  deriving Repr, DecidableEq

/-- Single-viewer loop: `json.JSONDecodeError` is caught and ignored; an
object message breaks only on `type == "stop"`; a non-object JSON payload
raises `AttributeError`, which escapes to the outer handler. -/
def single_viewer_step : Inbound → LoopOutcome
  | .obj t => if t = "stop" then .breakLoop else .keepOpen
  | .nonObject => .exitError
  | .unparseable => .keepOpen

/-- Producer relay loop: `frame` and unknown types keep the loop running,
`stop` breaks; `receive_json` raising on unparseable input (and `.get` on a
non-object) is not caught inside the loop, so the handler exits via the outer
`except`. -/
def producer_loop_step : Inbound → LoopOutcome
  | .obj t => if t = "stop" then .breakLoop else .keepOpen
  | .nonObject => .exitError
  | .unparseable => .exitError

/-- Consumer keep-alive loop: the body is wrapped in `try ... except
Exception: break`, so any receive/parse error breaks the loop; `stop` breaks;
other object messages are ignored. -/
def consumer_loop_step : Inbound → LoopOutcome
  | .obj t => if t = "stop" then .breakLoop else .keepOpen
  | .nonObject => .breakLoop
  | .unparseable => .breakLoop

/-! ### Helper lemmas about the deferred-prune broadcast discipline -/

theorem filter_notmem_nil (l : List Nat) :
    l.filter (fun c => decide (c ∉ ([] : List Nat))) = l := by
  simp

theorem filter_notmem_cons (l : List Nat) (d : Nat) (ds : List Nat) :
    l.filter (fun c => decide (c ∉ d :: ds))
      = (l.filter (fun c => c ≠ d)).filter (fun c => decide (c ∉ ds)) := by
  rw [List.filter_filter]
  refine List.filter_congr (fun x _ => ?_)
  by_cases h1 : x = d <;> by_cases h2 : x ∈ ds <;> simp [h1, h2]

theorem foldl_guard_erase (dead : List Nat) :
    ∀ l : List Nat, l.Nodup →
      List.foldl (fun cs ws => if ws ∈ cs then cs.erase ws else cs) l dead
        = l.filter (fun c => decide (c ∉ dead)) := by
  induction dead with
  | nil =>
    intro l _
    simp
  | cons d ds ih =>
    intro l h
    have hstep : (if d ∈ l then l.erase d else l) = l.filter (fun c => c ≠ d) := by
      by_cases hd : d ∈ l
      · rw [if_pos hd, h.erase_eq_filter]
        exact List.filter_congr (fun x _ => by by_cases hxd : x = d <;> simp [hxd])
      · rw [if_neg hd]
        symm
        rw [List.filter_eq_self]
        intro a ha
        simp only [Bool.not_eq_eq_eq_not, Bool.not_false, decide_eq_true_eq]
        exact fun had => hd (had ▸ ha)
    have hnd : (l.filter (fun c => c ≠ d)).Nodup := h.filter _
    rw [List.foldl_cons, hstep, ih _ hnd, ← filter_notmem_cons]

theorem filter_not_mem_dead (conns : List Nat) (live : Nat → Bool) :
    conns.filter (fun c => decide (c ∉ conns.filter (fun x => !live x)))
      = conns.filter live := by
  refine List.filter_congr (fun x hx => ?_)
  by_cases hl : live x
  · simp [hl, List.mem_filter]
  · simp [hl, List.mem_filter, hx]

theorem broadcast_remaining (consumers : List Nat) (live : Nat → Bool)
    (h : consumers.Nodup) :
    List.foldl (fun cs ws => if ws ∈ cs then cs.erase ws else cs) consumers
      (consumers.filter (fun c => !live c))
    = consumers.filter live := by
  rw [foldl_guard_erase _ _ h]
  exact filter_not_mem_dead consumers live

theorem count_pair_map {β : Type} [BEq β] [LawfulBEq β] (l : List Nat) (h : l.Nodup)
    (c : Nat) (m : β) (hc : c ∈ l) :
    ((l.map (fun x => (x, m))).count (c, m)) = 1 := by
  induction l with
  | nil => simp at hc
  | cons a t ih =>
    rcases List.mem_cons.mp hc with rfl | hct
    · have hnt : c ∉ t := (List.nodup_cons.mp h).1
      have hz : ((t.map (fun x => (x, m))).count (c, m)) = 0 := by
        rw [List.count_eq_zero]
        intro hmem
        rcases List.mem_map.mp hmem with ⟨x, hx, hxe⟩
        injection hxe with h1 h2
        exact hnt (h1 ▸ hx)
      simp [List.count_cons, hz]
    · have ha : a ≠ c := fun hca => ((List.nodup_cons.mp h).1 (hca ▸ hct))
      have ht := ih (List.nodup_cons.mp h).2 hct
      simp [List.count_cons, ht, ha]

theorem broadcast_to_consumers_eq (vs : MobileVideoSession) (live : Nat → Bool)
    (msg : RMsg) (h : vs.consumers.Nodup) :
    vs.broadcast_to_consumers live msg
      = ({ vs with consumers := vs.consumers.filter live },
         (vs.consumers.filter live).map (fun c => (c, msg))) := by
  unfold MobileVideoSession.broadcast_to_consumers
  simp only [broadcast_remaining _ _ h]

theorem disconnect_of_lookupA_none (m : ConnectionManager) (sid : String) (ws : Nat)
    (h : lookupA m.active_connections sid = none) : m.disconnect sid ws = m := by
  unfold ConnectionManager.disconnect
  rw [h]

theorem foldl_disconnect_of_none (dead : List Nat) (m : ConnectionManager) (sid : String)
    (h : lookupA m.active_connections sid = none) :
    List.foldl (fun acc ws => acc.disconnect sid ws) m dead = m := by
  induction dead with
  | nil => rfl
  | cons d ds ih =>
    rw [List.foldl_cons, disconnect_of_lookupA_none m sid d h]
    exact ih

theorem lookupA_disconnect_some (m : ConnectionManager) (sid : String) (d : Nat)
    (l : List Nat) (h : lookupA m.active_connections sid = some l) :
    lookupA (m.disconnect sid d).active_connections sid
      = (if l.filter (fun c => c ≠ d) = [] then none
         else some (l.filter (fun c => c ≠ d))) := by
  simp only [ConnectionManager.disconnect, h]
  by_cases he : l.filter (fun c => c ≠ d) = []
  · rw [if_pos he, if_pos he]
    exact lookupA_eraseA_self _ _
  · rw [if_neg he, if_neg he]
    exact lookupA_setA_self _ _ _

theorem lookupA_foldl_disconnect (dead : List Nat) :
    ∀ (m : ConnectionManager) (sid : String) (l : List Nat), l ≠ [] →
      lookupA m.active_connections sid = some l →
      lookupA (List.foldl (fun acc ws => acc.disconnect sid ws) m dead).active_connections sid
        = (if l.filter (fun c => decide (c ∉ dead)) = [] then none
           else some (l.filter (fun c => decide (c ∉ dead)))) := by
  induction dead with
  | nil =>
    intro m sid l hl h
    rw [List.foldl_nil]
    simp only [List.not_mem_nil, not_false_eq_true, decide_True, List.filter_true]
    rw [if_neg hl]
    exact h
  | cons d ds ih =>
    intro m sid l hl h
    rw [List.foldl_cons, filter_notmem_cons]
    by_cases he : l.filter (fun c => c ≠ d) = []
    · have h1 : lookupA (m.disconnect sid d).active_connections sid = none := by
        rw [lookupA_disconnect_some m sid d l h, if_pos he]
      rw [he]
      have h2 : lookupA (List.foldl (fun acc ws => acc.disconnect sid ws)
          (m.disconnect sid d) ds).active_connections sid = none := by
        rw [foldl_disconnect_of_none ds _ _ h1]
        exact h1
      simpa using h2
    · have h1 : lookupA (m.disconnect sid d).active_connections sid
          = some (l.filter (fun c => c ≠ d)) := by
        rw [lookupA_disconnect_some m sid d l h, if_neg he]
      exact ih (m.disconnect sid d) sid _ he h1

/-! ### Branch behaviour of the capture registry and the relay operations -/

theorem start_capture_already (oU : Int → Option Nat) (oS : String → Option Nat)
    (mgr : CameraManager) (sid src : String) (cap : Nat)
    (hl : lookupA mgr.active_cameras sid = some cap) :
    start_capture oU oS mgr sid src = (mgr, true, [.acquire, .release]) := by
  simp [start_capture, hl]

theorem start_capture_device (oU : Int → Option Nat) (oS : String → Option Nat)
    (mgr : CameraManager) (sid src : String) (idx : Int)
    (hfresh : lookupA mgr.active_cameras sid = none)
    (hcs : classify_source src = .device idx) :
    start_capture oU oS mgr sid src
      = (match oU idx with
         | none => (mgr, false, [.acquire, .openUSB idx, .release])
         | some cap =>
             (⟨setA mgr.active_cameras sid cap⟩, true,
               [.acquire, .openUSB idx, .release])) := by
  simp [start_capture, hfresh, hcs]

theorem start_capture_network (oU : Int → Option Nat) (oS : String → Option Nat)
    (mgr : CameraManager) (sid src url : String)
    (hfresh : lookupA mgr.active_cameras sid = none)
    (hcs : classify_source src = .network url) :
    start_capture oU oS mgr sid src
      = (match oS url with
         | none => (mgr, false, [.acquire, .openStream url, .release])
         | some cap =>
             (⟨setA mgr.active_cameras sid cap⟩, true,
               [.acquire, .openStream url, .release])) := by
  simp [start_capture, hfresh, hcs]

theorem start_capture_unrecognized (oU : Int → Option Nat) (oS : String → Option Nat)
    (mgr : CameraManager) (sid src : String)
    (hfresh : lookupA mgr.active_cameras sid = none)
    (hcs : classify_source src = .unrecognized) :
    start_capture oU oS mgr sid src = (mgr, false, [.acquire, .release]) := by
  simp [start_capture, hfresh, hcs]

theorem stop_capture_none (mgr : CameraManager) (sid : String)
    (h : lookupA mgr.active_cameras sid = none) :
    stop_capture mgr sid = (mgr, [.acquire, .release]) := by
  simp [stop_capture, h]

theorem stop_capture_some (mgr : CameraManager) (sid : String) (cap : Nat)
    (h : lookupA mgr.active_cameras sid = some cap) :
    stop_capture mgr sid
      = (⟨eraseA mgr.active_cameras sid⟩, [.acquire, .closeCap, .release]) := by
  simp [stop_capture, h]

theorem relayTeardown_consumer_noop (st : RelayState) (sid : String) (conn : Nat)
    (live : Nat → Bool) (vs : MobileVideoSession)
    (hvs : lookupA st.sessions sid = some vs) (hc : conn ∉ vs.consumers)
    (hne : ¬(vs.producer = none ∧ vs.consumers = [])) :
    relayTeardown st sid conn false live = (st, []) := by
  simp only [relayTeardown, hvs, if_neg hc, Bool.false_eq_true, if_false]
  have heta : MobileVideoSession.mk vs.session_id vs.producer vs.consumers vs.frame_count = vs := rfl
  rw [heta, setA_eq_self_of_lookupA st.sessions sid vs hvs, if_neg hne]

theorem start_capture_true_state (oU : Int → Option Nat) (oS : String → Option Nat)
    (mgr : CameraManager) (sid src : String)
    (hone : countKey mgr.active_cameras sid ≤ 1)
    (hr : (start_capture oU oS mgr sid src).2.1 = true) :
    ∃ cap, lookupA (start_capture oU oS mgr sid src).1.active_cameras sid = some cap ∧
      countKey (start_capture oU oS mgr sid src).1.active_cameras sid = 1 := by
  cases hl : lookupA mgr.active_cameras sid with
  | some cap =>
      rw [start_capture_already oU oS mgr sid src cap hl]
      exact ⟨cap, hl, le_antisymm hone (countKey_pos_of_lookupA_some _ _ _ hl)⟩
  | none =>
      cases hcs : classify_source src with
      | device idx =>
          rw [start_capture_device oU oS mgr sid src idx hl hcs] at hr ⊢
          cases ho : oU idx with
          | none =>
              rw [ho] at hr
              exact Bool.noConfusion hr
          | some cap =>
              exact ⟨cap, lookupA_setA_self _ _ _, countKey_setA_of_lookupA_none _ _ _ hl⟩
      | network url =>
          rw [start_capture_network oU oS mgr sid src url hl hcs] at hr ⊢
          cases ho : oS url with
          | none =>
              rw [ho] at hr
              exact Bool.noConfusion hr
          | some cap =>
              exact ⟨cap, lookupA_setA_self _ _ _, countKey_setA_of_lookupA_none _ _ _ hl⟩
      | unrecognized =>
          rw [start_capture_unrecognized oU oS mgr sid src hl hcs] at hr
          exact Bool.noConfusion hr

/-! ### Claim C4 — idempotent capture start -/

/-- Claim C4: `start_capture` is idempotent.  If an adapter already exists for
the session id, `start_capture` returns `True` immediately, performing no open
(the trace is just acquire/release) and leaving the map unchanged; and after
any successful start, a second start for the same session id returns `True`
without opening, leaves the map unchanged, and the map holds exactly one
adapter entry for that session id. -/
theorem C4_start_capture_idempotent (oU : Int → Option Nat) (oS : String → Option Nat)
    (mgr : CameraManager) (sid src : String)
    (hone : countKey mgr.active_cameras sid ≤ 1) :
    (∀ cap, lookupA mgr.active_cameras sid = some cap →
        start_capture oU oS mgr sid src = (mgr, true, [.acquire, .release])) ∧
    ((start_capture oU oS mgr sid src).2.1 = true →
        start_capture oU oS (start_capture oU oS mgr sid src).1 sid src
          = ((start_capture oU oS mgr sid src).1, true, [.acquire, .release]) ∧
        countKey (start_capture oU oS mgr sid src).1.active_cameras sid = 1) := by
  constructor
  · intro cap hl
    exact start_capture_already oU oS mgr sid src cap hl
  · intro hr
    obtain ⟨cap, hls, hck⟩ := start_capture_true_state oU oS mgr sid src hone hr
    exact ⟨start_capture_already oU oS _ sid src cap hls, hck⟩

/-- Claim C4, witness: two starts of `"device:0"` on an empty registry. -/
theorem C4_witness :
    countKey (CameraManager.mk []).active_cameras "S1" ≤ 1 ∧
    (start_capture (fun _ => some 7) (fun _ => some 7)
        (start_capture (fun _ => some 7) (fun _ => some 7) ⟨[]⟩ "S1" "device:0").1
        "S1" "device:0"
      = ((start_capture (fun _ => some 7) (fun _ => some 7) ⟨[]⟩ "S1" "device:0").1,
          true, [CapEvent.acquire, CapEvent.release]) ∧
     countKey (start_capture (fun _ => some 7) (fun _ => some 7) ⟨[]⟩ "S1"
        "device:0").1.active_cameras "S1" = 1) :=
  ⟨by decide, (C4_start_capture_idempotent (fun _ => some 7) (fun _ => some 7)
    ⟨[]⟩ "S1" "device:0" (by decide)).2 rfl⟩

/-! ### Claim C1 — producer exclusivity -/

/-- Claim C1: if a relay session already has a producer attached, a
`register_producer` attempt from another connection is answered with exactly
one `error` message, the registration is rejected, and the whole relay state —
in particular the producer slot — is left unchanged, so the original producer
remains attached. -/
theorem C1_producer_exclusive (st : RelayState) (sid : String) (conn p : Nat)
    (vs : MobileVideoSession) (live : Nat → Bool)
    (hvs : relayLookup st sid = some vs) (hp : vs.producer = some p)
    (hc : conn ∉ vs.consumers) :
    register_producer st sid conn live
      = (st, [(conn, RMsg.errorText
          "Producer already connected. Only one mobile device allowed.")], false) ∧
    relayLookup (register_producer st sid conn live).1 sid = some vs := by
  have hvs' : lookupA st.sessions sid = some vs := hvs
  have hne : ¬(vs.producer = none ∧ vs.consumers = []) := by
    intro hcontra
    rw [hp] at hcontra
    exact Option.noConfusion hcontra.1
  have hmain : register_producer st sid conn live
      = (st, [(conn, RMsg.errorText
          "Producer already connected. Only one mobile device allowed.")], false) := by
    simp only [register_producer, hvs', hp]
    rw [relayTeardown_consumer_noop st sid conn live vs hvs' hc hne]
    rfl
  refine ⟨hmain, ?_⟩
  rw [hmain]
  exact hvs

/-- Claim C1, witness: a second producer (connection 3) is rejected while
connection 1 keeps the slot. -/
theorem C1_witness :
    relayLookup (RelayState.mk [("S1", ⟨"S1", some 1, [2], 5⟩)] []) "S1"
      = some ⟨"S1", some 1, [2], 5⟩ ∧
    register_producer (RelayState.mk [("S1", ⟨"S1", some 1, [2], 5⟩)] [])
        "S1" 3 (fun _ => true)
      = (RelayState.mk [("S1", ⟨"S1", some 1, [2], 5⟩)] [],
         [(3, RMsg.errorText
            "Producer already connected. Only one mobile device allowed.")],
         false) :=
  ⟨rfl, (C1_producer_exclusive (RelayState.mk [("S1", ⟨"S1", some 1, [2], 5⟩)] [])
    "S1" 3 1 ⟨"S1", some 1, [2], 5⟩ (fun _ => true) rfl rfl (by decide)).1⟩

/-! ### Claim C3 — no stale empty relay entry -/

/-- Claim C3: after any teardown (producer or consumer), a relay-session entry
still present in the registry has a producer or at least one consumer: an
entry that would be empty is deleted, so a lookup never finds a stale empty
entry. -/
theorem C3_no_stale_empty_entry (st : RelayState) (sid : String) (conn : Nat)
    (isp : Bool) (live : Nat → Bool) (vs' : MobileVideoSession)
    (h : relayLookup (relayTeardown st sid conn isp live).1 sid = some vs') :
    vs'.producer ≠ none ∨ vs'.consumers ≠ [] := by
  by_contra hcon
  push_neg at hcon
  obtain ⟨hp, hc⟩ := hcon
  cases hl : lookupA st.sessions sid with
  | none =>
      simp only [relayTeardown, hl, relayLookup] at h
      exact Option.noConfusion h
  | some vs =>
      cases isp with
      | false =>
          simp only [relayTeardown, hl, relayLookup, Bool.false_eq_true, if_false] at h
          split at h <;> split at h <;>
            first
              | (rw [lookupA_eraseA_self] at h
                 exact Option.noConfusion h)
              | (rw [lookupA_setA_self] at h
                 injection h with h2
                 subst h2
                 rename_i hgc
                 exact hgc ⟨hp, hc⟩)
      | true =>
          simp only [relayTeardown, hl, relayLookup, eq_self_iff_true, if_true] at h
          split at h <;>
            first
              | (rw [lookupA_eraseA_self] at h
                 exact Option.noConfusion h)
              | (rw [lookupA_setA_self] at h
                 injection h with h2
                 subst h2
                 rename_i hgc
                 exact hgc ⟨hp, hc⟩)

/-- Claim C3, witness: consumer 3 leaves while producer 1 and consumer 2 stay;
the surviving entry is non-empty. -/
theorem C3_witness :
    relayLookup (relayTeardown (RelayState.mk [("S1", ⟨"S1", some 1, [2, 3], 5⟩)] [])
        "S1" 3 false (fun _ => true)).1 "S1" = some ⟨"S1", some 1, [2], 5⟩ ∧
    ((⟨"S1", some 1, [2], 5⟩ : MobileVideoSession).producer ≠ none ∨
     (⟨"S1", some 1, [2], 5⟩ : MobileVideoSession).consumers ≠ []) :=
  ⟨rfl, C3_no_stale_empty_entry (RelayState.mk [("S1", ⟨"S1", some 1, [2, 3], 5⟩)] [])
    "S1" 3 false (fun _ => true) ⟨"S1", some 1, [2], 5⟩ rfl⟩

/-! ### Claim C5 — mutex vs. blocking I/O -/

/-- Claim C5, counterexample.  The claim says the registry mutex is held only
for map mutation and never across a blocking I/O call.  In the code the whole
body of `start_capture` — including the awaited worker-pool open — runs inside
`async with self._lock`, and `stop_capture` calls `cap.release()` inside the
lock as well: on a fresh session with a successful opener, the open event of
the trace happens between acquire and release. -/
theorem C5_lock_counterexample :
    lockHeldAcrossBlocking
      (start_capture (fun _ => some 7) (fun _ => some 7) ⟨[]⟩ "S1" "device:0").2.2 = true ∧
    lockHeldAcrossBlocking (stop_capture ⟨[("S1", 7)]⟩ "S1").2 = true := by
  constructor <;> rfl

/-- Claim C5, amended.  The registry mutex IS held across the blocking open
and close: for every fresh session whose source is recognized, the
`start_capture` trace performs the blocking open between acquiring and
releasing the lock, and for every session with an active adapter the
`stop_capture` trace performs the blocking close between acquiring and
releasing the lock. -/
theorem C5_amended_lock_across_blocking (oU : Int → Option Nat)
    (oS : String → Option Nat) (mgr mgr2 : CameraManager) (sid sid2 src : String)
    (cap : Nat) (hfresh : lookupA mgr.active_cameras sid = none)
    (hknown : classify_source src ≠ .unrecognized)
    (hcap : lookupA mgr2.active_cameras sid2 = some cap) :
    lockHeldAcrossBlocking (start_capture oU oS mgr sid src).2.2 = true ∧
    lockHeldAcrossBlocking (stop_capture mgr2 sid2).2 = true := by
  constructor
  · cases hcs : classify_source src with
    | device idx =>
        rw [start_capture_device oU oS mgr sid src idx hfresh hcs]
        cases oU idx <;> rfl
    | network url =>
        rw [start_capture_network oU oS mgr sid src url hfresh hcs]
        cases oS url <;> rfl
    | unrecognized => exact absurd hcs hknown
  · rw [stop_capture_some mgr2 sid2 cap hcap]
    rfl

/-- Claim C5, witness for the amended theorem at concrete inputs. -/
theorem C5_amended_witness :
    lookupA (CameraManager.mk []).active_cameras "S1" = none ∧
    (lockHeldAcrossBlocking
        (start_capture (fun _ => some 7) (fun _ => some 7) ⟨[]⟩ "S1" "device:0").2.2 = true ∧
     lockHeldAcrossBlocking (stop_capture ⟨[("S2", 9)]⟩ "S2").2 = true) :=
  ⟨rfl, C5_amended_lock_across_blocking (fun _ => some 7) (fun _ => some 7)
    ⟨[]⟩ ⟨[("S2", 9)]⟩ "S1" "S2" "device:0" 9 rfl (by decide) rfl⟩

/-! ### Claim C6 — terminal status of the single-viewer pacer -/

/-- Claim C6, counterexample.  The claim says the status becomes `error` when
the capture source cannot be opened.  In the code the open-failure path sends
one `error` message and closes the socket before the status-writing region is
ever entered: no status write happens at all, in particular no `error`. -/
theorem C6_error_status_counterexample :
    (video_websocket_single (fun _ => none) (fun _ => none) ⟨[]⟩ "S1" "device:0"
        LoopEnd.stopMsg).statusWrites = [] ∧
    ("S1", "error") ∉ (video_websocket_single (fun _ => none) (fun _ => none) ⟨[]⟩ "S1"
        "device:0" LoopEnd.stopMsg).statusWrites := by
  refine ⟨rfl, by decide⟩

/-- Claim C6, amended.  When the loop ends (stop message, disconnect, or
exception) after a successful open, the status writes are `recording` then
`completed`, so the final status is `completed`; when the capture source
cannot be opened, the viewer receives one `error` message and the session
status is never written (it does not become `error`). -/
theorem C6_amended_terminal_status (oU : Int → Option Nat) (oS : String → Option Nat)
    (mgr : CameraManager) (sid src : String) (ends : LoopEnd) :
    ((start_capture oU oS mgr sid src).2.1 = true →
        (video_websocket_single oU oS mgr sid src ends).statusWrites
          = [(sid, "recording"), (sid, "completed")] ∧
        (video_websocket_single oU oS mgr sid src ends).statusWrites.getLast?
          = some (sid, "completed")) ∧
    ((start_capture oU oS mgr sid src).2.1 = false →
        (video_websocket_single oU oS mgr sid src ends).statusWrites = [] ∧
        (video_websocket_single oU oS mgr sid src ends).sent
          = [VOut.errorMsg ("Failed to open video source: " ++ src)]) := by
  constructor
  · intro hok
    cases ends <;> simp [video_websocket_single, hok]
  · intro hfail
    cases ends <;> simp [video_websocket_single, hfail]

/-- Claim C6, witness: with an opener that succeeds, a disconnect-terminated
run ends with status `completed`. -/
theorem C6_amended_witness :
    (start_capture (fun _ => some 7) (fun _ => some 7) ⟨[]⟩ "S1" "device:0").2.1 = true ∧
    (video_websocket_single (fun _ => some 7) (fun _ => some 7) ⟨[]⟩ "S1" "device:0"
        LoopEnd.disconnect).statusWrites.getLast? = some ("S1", "completed") :=
  ⟨rfl, ((C6_amended_terminal_status (fun _ => some 7) (fun _ => some 7) ⟨[]⟩
    "S1" "device:0" LoopEnd.disconnect).1 rfl).2⟩

/-! ### Claim C7 — source-locator grammar -/

/-- Claim C7, counterexample.  `"device:abc"` matches neither
`device:<integer>` (its suffix does not parse as an integer) nor a network
scheme, so per the claim it should be rejected at capture start; the code
instead falls back to device index 0, start succeeds (when device 0 opens),
and the viewer receives `connected`, not an error. -/
theorem C7_locator_counterexample :
    pythonInt "abc" = none ∧
    classify_source "device:abc" = SourceKind.device 0 ∧
    (start_capture (fun _ => some 5) (fun _ => some 5) ⟨[]⟩ "S1" "device:abc").2.1 = true ∧
    (video_websocket_single (fun _ => some 5) (fun _ => some 5) ⟨[]⟩ "S1" "device:abc"
        LoopEnd.stopMsg).sent = [VOut.connected "S1" "device:abc"] := by
  refine ⟨rfl, rfl, rfl, rfl⟩

/-- Claim C7, amended.  A locator starting with `device:` opens the local
device whose index is the integer parse of the text after the first colon,
falling back to index 0 when that text is not an integer (instead of being
rejected); a locator with scheme in {udp, rtsp, http, https} opens a network
stream; only a locator matching neither form is rejected: start returns
failure and the viewer receives an `error` message. -/
theorem C7_amended_locator (oU : Int → Option Nat) (oS : String → Option Nat)
    (mgr : CameraManager) (sid src : String)
    (hfresh : lookupA mgr.active_cameras sid = none) :
    (strStartsWith src "device:" = true →
        (start_capture oU oS mgr sid src).2.2
          = [.acquire, .openUSB (parse_device_index src), .release]) ∧
    (strStartsWith src "device:" = false →
        networkSchemes.any (fun p => strStartsWith src p) = true →
        (start_capture oU oS mgr sid src).2.2
          = [.acquire, .openStream src, .release]) ∧
    (strStartsWith src "device:" = false →
        networkSchemes.any (fun p => strStartsWith src p) = false →
        start_capture oU oS mgr sid src = (mgr, false, [.acquire, .release]) ∧
        ∀ ends, (video_websocket_single oU oS mgr sid src ends).sent
          = [VOut.errorMsg ("Failed to open video source: " ++ src)]) ∧
    (∀ t i, (pySplitColon src)[1]? = some t → pythonInt t = some i →
        parse_device_index src = i) ∧
    (∀ t, (pySplitColon src)[1]? = some t → pythonInt t = none →
        parse_device_index src = 0) := by
  refine ⟨?_, ?_, ?_, ?_, ?_⟩
  · intro hdev
    have hcs : classify_source src = .device (parse_device_index src) := by
      simp [classify_source, hdev]
    rw [start_capture_device oU oS mgr sid src _ hfresh hcs]
    cases oU (parse_device_index src) <;> rfl
  · intro hdev hnet
    have hcs : classify_source src = .network src := by
      simp [classify_source, hdev, hnet]
    rw [start_capture_network oU oS mgr sid src src hfresh hcs]
    cases oS src <;> rfl
  · intro hdev hnet
    have hcs : classify_source src = .unrecognized := by
      simp [classify_source, hdev, hnet]
    have hsc := start_capture_unrecognized oU oS mgr sid src hfresh hcs
    refine ⟨hsc, fun ends => ?_⟩
    cases ends <;> simp [video_websocket_single, hsc]
  · intro t i ht hi
    simp [parse_device_index, ht, hi]
  · intro t ht hnone
    simp [parse_device_index, ht, hnone]

/-- Claim C7, witness: the device branch at `"device:3"`. -/
theorem C7_amended_witness :
    (strStartsWith "device:3" "device:" = true) ∧
    (start_capture (fun _ => some 7) (fun _ => some 7) ⟨[]⟩ "S1" "device:3").2.2
      = [CapEvent.acquire, CapEvent.openUSB (parse_device_index "device:3"),
          CapEvent.release] :=
  ⟨rfl, (C7_amended_locator (fun _ => some 7) (fun _ => some 7) ⟨[]⟩
    "S1" "device:3" rfl).1 rfl⟩

/-! ### Claim C9 — reaction of the receive loops to unknown input -/

/-- Claim C9, counterexample.  The claim says an unparseable inbound message
is ignored and the connection stays open in all three loops; in the relay
producer loop `receive_json` raising is not caught inside the loop, and in
the consumer loop any exception breaks the loop, so in both relay loops an
unparseable message terminates the connection. -/
theorem C9_unparseable_counterexample :
    producer_loop_step Inbound.unparseable ≠ LoopOutcome.keepOpen ∧
    consumer_loop_step Inbound.unparseable ≠ LoopOutcome.keepOpen := by
  decide

/-- Claim C9, amended.  A parseable object message with an unrecognized type
is ignored (the loop stays open) in all three loops and only `stop` breaks;
unparseable input is ignored only by the single-viewer loop, while it
terminates the relay producer loop (uncaught exception) and the relay
consumer loop (caught, but answered by `break`). -/
theorem C9_amended_message_handling :
    (∀ t : String, t ≠ "stop" → single_viewer_step (.obj t) = .keepOpen) ∧
    (∀ t : String, t ≠ "stop" → producer_loop_step (.obj t) = .keepOpen) ∧
    (∀ t : String, t ≠ "stop" → consumer_loop_step (.obj t) = .keepOpen) ∧
    single_viewer_step .unparseable = .keepOpen ∧
    producer_loop_step .unparseable = .exitError ∧
    consumer_loop_step .unparseable = .breakLoop ∧
    single_viewer_step (.obj "stop") = .breakLoop ∧
    producer_loop_step (.obj "stop") = .breakLoop ∧
    consumer_loop_step (.obj "stop") = .breakLoop := by
  refine ⟨?_, ?_, ?_, rfl, rfl, rfl, rfl, rfl, rfl⟩ <;>
    · intro t ht
      simp [single_viewer_step, producer_loop_step, consumer_loop_step, ht]

/-- Claim C9, witness: an unrecognized `ping` is ignored by all three loops. -/
theorem C9_amended_witness :
    single_viewer_step (.obj "ping") = .keepOpen ∧
    producer_loop_step (.obj "ping") = .keepOpen ∧
    consumer_loop_step (.obj "ping") = .keepOpen :=
  ⟨C9_amended_message_handling.1 "ping" (by decide),
   C9_amended_message_handling.2.1 "ping" (by decide),
   C9_amended_message_handling.2.2.1 "ping" (by decide)⟩

theorem relayTeardown_frame_count (st : RelayState) (sid : String) (conn : Nat)
    (isp : Bool) (live : Nat → Bool) (vs vs' : MobileVideoSession)
    (h : lookupA st.sessions sid = some vs)
    (h2 : lookupA (relayTeardown st sid conn isp live).1.sessions sid = some vs') :
    vs'.frame_count = vs.frame_count := by
  cases isp with
  | false =>
      simp only [relayTeardown, h, Bool.false_eq_true, if_false] at h2
      split at h2 <;> split at h2 <;>
        first
          | (rw [lookupA_eraseA_self] at h2
             exact Option.noConfusion h2)
          | (rw [lookupA_setA_self] at h2
             injection h2 with h3
             subst h3
             rfl)
  | true =>
      simp only [relayTeardown, h, eq_self_iff_true, if_true] at h2
      split at h2 <;>
        first
          | (rw [lookupA_eraseA_self] at h2
             exact Option.noConfusion h2)
          | (rw [lookupA_setA_self] at h2
             injection h2 with h3
             subst h3
             rfl)

theorem relayTeardown_keeps_when_producer (st : RelayState) (sid : String)
    (conn : Nat) (live : Nat → Bool) (vs : MobileVideoSession) (p : Nat)
    (h : lookupA st.sessions sid = some vs) (hp : vs.producer = some p) :
    lookupA (relayTeardown st sid conn false live).1.sessions sid ≠ none := by
  simp only [relayTeardown, h, Bool.false_eq_true, if_false]
  split <;> split <;>
    first
      | (rename_i hgc
         rw [hp] at hgc
         exact absurd hgc.1 (fun hx => Option.noConfusion hx))
      | (rw [lookupA_setA_self]
         exact fun hx => Option.noConfusion hx)

/-! ### Claim C10 — relay frame counter -/

/-- Claim C10: the relay frame counter starts at 0 when the session entry is
created, grows by exactly one per producer `frame` message, and is preserved
by producer registration (accepted or rejected), consumer registration, and
any teardown that leaves the entry alive — in particular across a producer
disconnect and re-registration while a consumer keeps the entry alive — and a
registering consumer receives the cumulative count in its `registered`
acknowledgement. -/
theorem C10_frame_count_invariant (st : RelayState) (sid : String)
    (live : Nat → Bool) (conn payload : Nat) (vs : MobileVideoSession) :
    (relayLookup st sid = none →
        relayLookup (getOrCreateSession st sid) sid = some ⟨sid, none, [], 0⟩) ∧
    (relayLookup st sid = some vs →
        (relayLookup (producer_frame st sid live payload).1 sid).map
            MobileVideoSession.frame_count = some (vs.frame_count + 1)) ∧
    (relayLookup st sid = some vs →
        (relayLookup (register_producer st sid conn live).1 sid).map
            MobileVideoSession.frame_count = some vs.frame_count) ∧
    (relayLookup st sid = some vs →
        register_consumer st sid conn
          = ({ st with
                sessions := setA st.sessions sid
                    { vs with consumers := vs.consumers ++ [conn] } },
             [(conn, RMsg.registeredConsumer sid vs.producer.isSome vs.frame_count)])) ∧
    (∀ isp vs', relayLookup st sid = some vs →
        relayLookup (relayTeardown st sid conn isp live).1 sid = some vs' →
        vs'.frame_count = vs.frame_count) := by
  refine ⟨?_, ?_, ?_, ?_, ?_⟩
  · intro h
    have h' : lookupA st.sessions sid = none := h
    simp only [getOrCreateSession, relayLookup, h']
    exact lookupA_setA_self _ _ _
  · intro h
    have h' : lookupA st.sessions sid = some vs := h
    simp only [producer_frame, relayLookup, h']
    rw [lookupA_setA_self]
    rfl
  · intro h
    have h' : lookupA st.sessions sid = some vs := h
    cases hp : vs.producer with
    | none =>
        simp only [register_producer, relayLookup, h', hp]
        rw [lookupA_setA_self]
        rfl
    | some p =>
        simp only [register_producer, relayLookup, h', hp]
        cases hlk : lookupA (relayTeardown st sid conn false live).1.sessions sid with
        | none =>
            exact absurd hlk
              (relayTeardown_keeps_when_producer st sid conn live vs p h' hp)
        | some vs' =>
            exact congrArg some
              (relayTeardown_frame_count st sid conn false live vs vs' h' hlk)
  · intro h
    have h' : lookupA st.sessions sid = some vs := h
    simp only [register_consumer, h']
  · intro isp vs' h h2
    exact relayTeardown_frame_count st sid conn isp live vs vs' h h2

/-- Claim C10, witness: a `frame` message takes the counter of session `S1`
from 5 to 6. -/
theorem C10_witness :
    relayLookup (RelayState.mk [("S1", ⟨"S1", some 1, [2], 5⟩)] []) "S1"
      = some ⟨"S1", some 1, [2], 5⟩ ∧
    (relayLookup (producer_frame (RelayState.mk [("S1", ⟨"S1", some 1, [2], 5⟩)] [])
        "S1" (fun _ => true) 99).1 "S1").map MobileVideoSession.frame_count = some 6 :=
  ⟨rfl, (C10_frame_count_invariant (RelayState.mk [("S1", ⟨"S1", some 1, [2], 5⟩)] [])
    "S1" (fun _ => true) 7 99 ⟨"S1", some 1, [2], 5⟩).2.1 rfl⟩

theorem relayTeardown_producer_parts (st : RelayState) (sid : String) (conn : Nat)
    (live : Nat → Bool) (vs : MobileVideoSession)
    (h : lookupA st.sessions sid = some vs) (hnd : vs.consumers.Nodup) :
    (relayTeardown st sid conn true live).2
        = (vs.consumers.filter live).map (fun c => (c, RMsg.producerDisconnected)) ∧
    lookupA (relayTeardown st sid conn true live).1.statusStore sid = some "completed" ∧
    (∀ vs', lookupA (relayTeardown st sid conn true live).1.sessions sid = some vs' →
        vs' = ⟨vs.session_id, none, vs.consumers.filter live, vs.frame_count⟩) := by
  have hb := broadcast_to_consumers_eq
    (MobileVideoSession.mk vs.session_id none vs.consumers vs.frame_count) live
    RMsg.producerDisconnected hnd
  refine ⟨?_, ?_, ?_⟩
  · simp only [relayTeardown, h, eq_self_iff_true, if_true, hb]
    split <;> rfl
  · simp only [relayTeardown, h, eq_self_iff_true, if_true, hb]
    split <;> exact lookupA_setA_self _ _ _
  · intro vs' hvs'
    simp only [relayTeardown, h, eq_self_iff_true, if_true, hb] at hvs'
    split at hvs'
    · rw [lookupA_eraseA_self] at hvs'
      exact Option.noConfusion hvs'
    · rw [lookupA_setA_self] at hvs'
      injection hvs' with h2
      exact h2.symm

/-! ### Claim C2 — producer teardown -/

/-- Claim C2: when the producer of a relay session terminates (stop message,
disconnect, or exception — all reach the same `finally` block), teardown
clears the producer slot, delivers exactly one `producer_disconnected`
message to each consumer still connected (and to nobody else), and sets the
session status in the external store to `completed`. -/
theorem C2_producer_teardown (st : RelayState) (sid : String) (conn : Nat)
    (vs : MobileVideoSession) (live : Nat → Bool)
    (hvs : relayLookup st sid = some vs) (hnd : vs.consumers.Nodup) :
    (∀ vs', relayLookup (relayTeardown st sid conn true live).1 sid = some vs' →
        vs'.producer = none) ∧
    lookupA (relayTeardown st sid conn true live).1.statusStore sid
      = some "completed" ∧
    (∀ c ∈ vs.consumers, live c = true →
        ((relayTeardown st sid conn true live).2.count
          (c, RMsg.producerDisconnected)) = 1) ∧
    (∀ c msg, (c, msg) ∈ (relayTeardown st sid conn true live).2 →
        msg = RMsg.producerDisconnected ∧ c ∈ vs.consumers ∧ live c = true) := by
  have h' : lookupA st.sessions sid = some vs := hvs
  obtain ⟨hout, hstatus, hentry⟩ :=
    relayTeardown_producer_parts st sid conn live vs h' hnd
  refine ⟨?_, hstatus, ?_, ?_⟩
  · intro vs' hl
    rw [hentry vs' hl]
  · intro c hc hlive
    rw [hout]
    exact count_pair_map (vs.consumers.filter live) (hnd.filter _) c _
      (List.mem_filter.mpr ⟨hc, hlive⟩)
  · intro c msg hm
    rw [hout] at hm
    rcases List.mem_map.mp hm with ⟨x, hx, hxe⟩
    injection hxe with h1 h2
    subst h1
    exact ⟨h2.symm, (List.mem_filter.mp hx).1, (List.mem_filter.mp hx).2⟩

/-- Claim C2, witness: producer 1 of session `S1` disconnects; consumers 2 and
3 are live; status becomes `completed` and consumer 2 gets exactly one
`producer_disconnected`. -/
theorem C2_witness :
    relayLookup (RelayState.mk [("S1", ⟨"S1", some 1, [2, 3], 5⟩)] []) "S1"
      = some ⟨"S1", some 1, [2, 3], 5⟩ ∧
    lookupA (relayTeardown (RelayState.mk [("S1", ⟨"S1", some 1, [2, 3], 5⟩)] [])
        "S1" 1 true (fun _ => true)).1.statusStore "S1" = some "completed" ∧
    ((relayTeardown (RelayState.mk [("S1", ⟨"S1", some 1, [2, 3], 5⟩)] [])
        "S1" 1 true (fun _ => true)).2.count (2, RMsg.producerDisconnected)) = 1 :=
  ⟨rfl,
   (C2_producer_teardown (RelayState.mk [("S1", ⟨"S1", some 1, [2, 3], 5⟩)] [])
      "S1" 1 ⟨"S1", some 1, [2, 3], 5⟩ (fun _ => true) rfl (by decide)).2.1,
   (C2_producer_teardown (RelayState.mk [("S1", ⟨"S1", some 1, [2, 3], 5⟩)] [])
      "S1" 1 ⟨"S1", some 1, [2, 3], 5⟩ (fun _ => true) rfl (by decide)).2.2.1
     2 (by decide) rfl⟩

/-! ### Claim C8 — event-hub broadcast discipline -/

/-- Claim C8: `broadcast` sends the serialized message to every subscriber of
the session id, collecting failed sends and pruning them only after the send
pass over the set completes; every live subscriber receives the message
exactly once, deliveries go only to live subscribers, exactly the dead
connections are removed (the surviving set is the live subscribers, with the
session key deleted when none survive), and a broadcast to a session id with
no subscribers returns without effect. -/
theorem C8_broadcast_discipline (m : ConnectionManager) (live : Nat → Bool)
    (sid data : String) (conns : List Nat)
    (hnd : conns.Nodup) (hne : conns ≠ []) :
    (lookupA m.active_connections sid = none →
        m.broadcast live sid data = (m, [])) ∧
    (lookupA m.active_connections sid = some conns →
        (∀ c ∈ conns, live c = true →
            ((m.broadcast live sid data).2.count (c, data)) = 1) ∧
        (∀ c s, (c, s) ∈ (m.broadcast live sid data).2 →
            s = data ∧ c ∈ conns ∧ live c = true) ∧
        lookupA (m.broadcast live sid data).1.active_connections sid
          = (if conns.filter live = [] then none else some (conns.filter live))) := by
  constructor
  · intro h
    simp [ConnectionManager.broadcast, h]
  · intro h
    have hdeliv : (m.broadcast live sid data).2
        = (conns.filter live).map (fun c => (c, data)) := by
      simp only [ConnectionManager.broadcast, h]
    have hstate : lookupA (m.broadcast live sid data).1.active_connections sid
        = (if conns.filter live = [] then none else some (conns.filter live)) := by
      simp only [ConnectionManager.broadcast, h]
      rw [lookupA_foldl_disconnect (conns.filter (fun c => !live c)) m sid conns hne h]
      simp only [filter_not_mem_dead]
    refine ⟨?_, ?_, hstate⟩
    · intro c hc hlive
      rw [hdeliv]
      exact count_pair_map (conns.filter live) (hnd.filter _) c data
        (List.mem_filter.mpr ⟨hc, hlive⟩)
    · intro c s hm
      rw [hdeliv] at hm
      rcases List.mem_map.mp hm with ⟨x, hx, hxe⟩
      injection hxe with h1 h2
      subst h1
      exact ⟨h2.symm, (List.mem_filter.mp hx).1, (List.mem_filter.mp hx).2⟩

/-- Claim C8, witness: subscribers 1, 2, 3 of session `S1` with connection 2
dead — 1 receives the message exactly once and the surviving set is exactly
the live subscribers 1 and 3. -/
theorem C8_witness :
    lookupA (ConnectionManager.mk [("S1", [1, 2, 3])]).active_connections "S1"
      = some [1, 2, 3] ∧
    lookupA ((ConnectionManager.mk [("S1", [1, 2, 3])]).broadcast
        (fun c => c ≠ 2) "S1" "msg").1.active_connections "S1" = some [1, 3] ∧
    (((ConnectionManager.mk [("S1", [1, 2, 3])]).broadcast
        (fun c => c ≠ 2) "S1" "msg").2.count (1, "msg")) = 1 :=
  ⟨rfl,
   (((C8_broadcast_discipline (ConnectionManager.mk [("S1", [1, 2, 3])])
      (fun c => c ≠ 2) "S1" "msg" [1, 2, 3] (by decide) (by decide)).2
        rfl).2.2).trans (by decide),
   ((C8_broadcast_discipline (ConnectionManager.mk [("S1", [1, 2, 3])])
      (fun c => c ≠ 2) "S1" "msg" [1, 2, 3] (by decide) (by decide)).2
        rfl).1 1 (by decide) (by decide)⟩

end PoolTelemetry
